import Mathlib

/-!
# Verification of the Tab Copy plugin (obsidian-tab-copy-plugin)

Shallow embedding of the plugin's two behavioural pieces:

* the link resolver `copyLink` (main source, lines 111-154): locates the
  active tab header, reads its title from the inner-title sub-element and
  its `data-type` attribute, renders a wiki link or a markdown link,
  writes it to the clipboard and emits a notice;
* the double-click trigger manager (`addDoubleClickListener` /
  `removeDoubleClickListener`, lines 87-103, together with the
  `MutationObserver` callback of `onload` and the settings toggle handler):
  a state machine over which DOM elements currently hold the `dblclick`
  handler.

DOM facts used by the embedding, stated once here:

* `querySelector` may return `null`; reading `.innerText` or calling a
  method on `null` throws a `TypeError` that aborts the function;
* `getAttribute` returns the attribute string or `null`;
* a JS template literal renders the `null` value as the text `"null"`;
* `addEventListener` with an already-registered (type, callback) pair on
  the same element is a no-op (no duplicate registration), and
  `removeEventListener` for a pair that is not registered is a no-op;
  the plugin always passes the single bound method `this.handleDoubleClick`,
  so callback identity is fixed.
-/

namespace TabCopy

/-- The active tab header element, as `copyLink` and the listener code see
it: only its `data-type` attribute is read (`getAttribute` may yield null,
hence `Option`). -/
structure ActiveTabEl where
  dataType : Option String
deriving DecidableEq

/-- The `webview` element found under `.view-content.webviewer-content`,
if any; only its `src` attribute is read (`getAttribute` may yield null). -/
structure WebviewEl where
  src : Option String
deriving DecidableEq

/-- A snapshot of the three `querySelector` results `copyLink` performs:
the active tab header, the inner-title sub-element (its `innerText`), and
the webview element. `none` means the selector matched nothing. -/
structure UIState where
  activeTab : Option ActiveTabEl
  innerTitle : Option String
  webview : Option WebviewEl
deriving DecidableEq

/-- Rendering of a `string | null` JS value inside a template literal:
`null` prints as `"null"`. -/
def jsInterp : Option String → String
  | some s => s
  | none => "null"

/-- Everything externally visible about one `copyLink` invocation. -/
inductive CopyOutcome where
  /-- The unguarded `.innerText` read on the inner-title query threw a
  `TypeError` (the query returned `null`); the function aborted. -/
  | thrown : CopyOutcome
  /-- No active tab header matched; the no-active-tab notice was shown. -/
  | noTab : CopyOutcome
  /-- `link` was written to the clipboard and `notice` was shown after the
  write settled. -/
  | wrote (link : String) (notice : String) : CopyOutcome
  /-- Unrecognized `data-type`: the function fell through both branches. -/
  | silent : CopyOutcome
deriving DecidableEq

/-- `copyLink` from the main source (lines 111-154), embedded as a pure
function of the DOM snapshot. `clipOk` is the outcome of the asynchronous
`navigator.clipboard.writeText` promise: `true` selects the fulfilled
callback (success notice carrying the link), `false` the rejected one
(failure notice). The source mutates no plugin field and no DOM node, so
no state is threaded. -/
def copyLink (st : UIState) (clipOk : Bool) : CopyOutcome :=
  match st.activeTab with
  | none => .noTab
  | some activeTab =>
    match st.innerTitle with
    | none => .thrown
    | some tabTitle =>
      let dataType := activeTab.dataType
      if dataType = some "webviewer" then
        let tabLink : Option String :=
          match st.webview with
          | some webviewContent => webviewContent.src
          | none => some ""
        let markdownLink := "[" ++ tabTitle ++ "](" ++ jsInterp tabLink ++ ")"
        .wrote markdownLink
          (if clipOk then "已复制 Markdown 链接: " ++ markdownLink
           else "复制失败，请重试")
      else if dataType = some "markdown" then
        let wikiLink := "[[" ++ tabTitle ++ "]]"
        .wrote wikiLink
          (if clipOk then "已复制 Wiki 链接: " ++ wikiLink
           else "复制失败，请重试")
      else
        .silent

/-- The string written to the clipboard by an invocation, if any. -/
def clipboardWrite : CopyOutcome → Option String
  | .wrote link _ => some link
  | _ => none

/-- The user-visible notices emitted by an invocation. -/
def notices : CopyOutcome → List String
  | .noTab => ["未找到激活的标签页"]
  | .wrote _ n => [n]
  | _ => []

/-- `sub` occurs contiguously inside `s`. -/
def strContains (s sub : String) : Prop :=
  ∃ pre post : String, s = pre ++ sub ++ post

end TabCopy

namespace TabCopy

/-!
## Double-click trigger manager

Elements are identified by `Nat` ids. `listeners` is the set (as a
duplicate-free list, per the DOM no-duplicate-registration rule) of
elements currently holding the `dblclick` handler; `active` is the element
currently matched by the selector
`.workspace-tab-header.tappable.is-active.mod-active`, if any; `enabled`
is `settings.enableDoubleClick`.
-/

/-- Listener-manager state. -/
structure DCState where
  enabled : Bool
  listeners : List Nat
  active : Option Nat
deriving DecidableEq

/-- `removeDoubleClickListener` (lines 98-103): query the current active
header; if present, remove the handler from it (a no-op when it is not
registered there). -/
def removeDoubleClickListener (s : DCState) : DCState :=
  match s.active with
  | some e => { s with listeners := s.listeners.erase e }
  | none => s

/-- `addDoubleClickListener` (lines 87-95): first remove, then query the
current active header and, if present, register the handler on it
(`addEventListener` does not duplicate an existing registration). -/
def addDoubleClickListener (s : DCState) : DCState :=
  let s1 := removeDoubleClickListener s
  match s1.active with
  | some e =>
    { s1 with listeners := if e ∈ s1.listeners then s1.listeners else e :: s1.listeners }
  | none => s1

/-- Events the manager reacts to. `setActive` is the environment moving
the `is-active mod-active` classes to another header (a class-only change,
which the `childList` observer does not report); `mutation` is the
`MutationObserver` callback firing; `toggle` is the settings control
change handler; `dblclick e` is the user double-clicking header `e`. -/
inductive UIEvent where
  | mutation : UIEvent
  | toggle (v : Bool) : UIEvent
  | setActive (a : Option Nat) : UIEvent
  | dblclick (e : Nat) : UIEvent
deriving DecidableEq

/-- One event step. The `Bool` result reports whether `handleDoubleClick`
(and hence `copyLink`) ran on this event. `mutation` re-runs the observer
body (lines 60-66); `toggle` runs the settings `onChange` body (lines
190-200: store the value, then add or remove); `dblclick e` fires the
handler iff `e` currently holds it. -/
def dcStep (s : DCState) : UIEvent → DCState × Bool
  | .mutation =>
    ((if s.enabled then addDoubleClickListener s else removeDoubleClickListener s), false)
  | .toggle v =>
    ((if v then addDoubleClickListener { s with enabled := v }
      else removeDoubleClickListener { s with enabled := v }), false)
  | .setActive a => ({ s with active := a }, false)
  | .dblclick e => (s, decide (e ∈ s.listeners))

/-- State after `onload` (lines 43-73): no handler registered anywhere,
then `addDoubleClickListener` iff the loaded setting enables it. -/
def dcInit (enabled : Bool) (active : Option Nat) : DCState :=
  let s : DCState := { enabled := enabled, listeners := [], active := active }
  if enabled then addDoubleClickListener s else s

/-- Run a sequence of events. -/
def dcRun (s : DCState) : List UIEvent → DCState
  | [] => s
  | ev :: evs => dcRun (dcStep s ev).1 evs

lemma removeDC_listeners_nodup (s : DCState) (h : s.listeners.Nodup) :
    (removeDoubleClickListener s).listeners.Nodup := by
  unfold removeDoubleClickListener
  cases s.active with
  | none => exact h
  | some e => exact h.erase e

lemma addDC_listeners_nodup (s : DCState) (h : s.listeners.Nodup) :
    (addDoubleClickListener s).listeners.Nodup := by
  unfold addDoubleClickListener
  have h1 := removeDC_listeners_nodup s h
  cases hA : (removeDoubleClickListener s).active with
  | none => simpa [hA] using h1
  | some e =>
    by_cases hm : e ∈ (removeDoubleClickListener s).listeners
    · simpa [hA, hm] using h1
    · simpa [hA, hm] using List.Nodup.cons hm h1

lemma dcStep_listeners_nodup (s : DCState) (h : s.listeners.Nodup) (ev : UIEvent) :
    ((dcStep s ev).1).listeners.Nodup := by
  cases ev with
  | mutation =>
    by_cases he : s.enabled
    · simpa [dcStep, he] using addDC_listeners_nodup s h
    · simpa [dcStep, he] using removeDC_listeners_nodup s h
  | toggle v =>
    cases v with
    | true => simpa [dcStep] using addDC_listeners_nodup { s with enabled := true } h
    | false => simpa [dcStep] using removeDC_listeners_nodup { s with enabled := false } h
  | setActive a => simpa [dcStep] using h
  | dblclick e => simpa [dcStep] using h

lemma dcRun_listeners_nodup (s : DCState) (h : s.listeners.Nodup) (evs : List UIEvent) :
    (dcRun s evs).listeners.Nodup := by
  induction evs generalizing s with
  | nil => simpa [dcRun] using h
  | cons ev evs ih => exact ih _ (dcStep_listeners_nodup s h ev)

lemma dcInit_listeners_nodup (enabled : Bool) (active : Option Nat) :
    (dcInit enabled active).listeners.Nodup := by
  unfold dcInit
  by_cases he : enabled
  · simpa [he] using addDC_listeners_nodup { enabled := enabled, listeners := [], active := active } List.nodup_nil
  · simp [he]

end TabCopy

namespace TabCopy

/-- C1: for an active tab of kind NoteLink (`data-type = "markdown"`) with
title `T`, `copyLink` writes exactly `"[[" ++ T ++ "]]"` to the clipboard. -/
theorem noteLink_writes_wiki_link (st : UIState) (tab : ActiveTabEl) (T : String)
    (clipOk : Bool) (hTab : st.activeTab = some tab)
    (hKind : tab.dataType = some "markdown") (hTitle : st.innerTitle = some T) :
    clipboardWrite (copyLink st clipOk) = some ("[[" ++ T ++ "]]") := by
  simp [copyLink, hTab, hTitle, hKind, clipboardWrite]

/-- C1 witness: the spec's scenario, title "Project Notes". -/
theorem noteLink_writes_wiki_link_witness :
    clipboardWrite (copyLink ⟨some ⟨some "markdown"⟩, some "Project Notes", none⟩ true)
      = some "[[Project Notes]]" := by
  have h := noteLink_writes_wiki_link ⟨some ⟨some "markdown"⟩, some "Project Notes", none⟩
    ⟨some "markdown"⟩ "Project Notes" true rfl rfl rfl
  rw [h]
  decide

/-- C2: for an active tab of kind WebLink (`data-type = "webviewer"`) with
title `T`: if the webview element exists with source address `A`,
`copyLink` writes exactly `"[" ++ T ++ "](" ++ A ++ ")"`; if no webview
element exists, it writes exactly `"[" ++ T ++ "]()"` (empty address, no
failure). -/
theorem webLink_writes_markdown_link (clipOk : Bool) :
    (∀ (st : UIState) (tab : ActiveTabEl) (T A : String),
      st.activeTab = some tab → tab.dataType = some "webviewer" →
      st.innerTitle = some T → st.webview = some ⟨some A⟩ →
      clipboardWrite (copyLink st clipOk) = some ("[" ++ T ++ "](" ++ A ++ ")"))
    ∧ (∀ (st : UIState) (tab : ActiveTabEl) (T : String),
      st.activeTab = some tab → tab.dataType = some "webviewer" →
      st.innerTitle = some T → st.webview = none →
      clipboardWrite (copyLink st clipOk) = some ("[" ++ T ++ "]()")) := by
  constructor
  · intro st tab T A hTab hKind hTitle hWv
    simp [copyLink, hTab, hTitle, hKind, hWv, jsInterp, clipboardWrite]
  · intro st tab T hTab hKind hTitle hWv
    simp only [copyLink, hTab, hTitle, hKind, hWv, jsInterp, clipboardWrite,
      reduceIte, String.append_empty, Option.some.injEq]
    rw [String.append_assoc, (by decide : "](" ++ ")" = "]()")]

/-- C2 witness: the spec's scenario (title "Docs", address
"https://example.com") and the missing-webview case. -/
theorem webLink_writes_markdown_link_witness :
    clipboardWrite (copyLink ⟨some ⟨some "webviewer"⟩, some "Docs", some ⟨some "https://example.com"⟩⟩ true)
      = some "[Docs](https://example.com)"
    ∧ clipboardWrite (copyLink ⟨some ⟨some "webviewer"⟩, some "Docs", none⟩ true)
      = some "[Docs]()" := by
  have h := webLink_writes_markdown_link true
  constructor
  · have h1 := h.1 ⟨some ⟨some "webviewer"⟩, some "Docs", some ⟨some "https://example.com"⟩⟩
      ⟨some "webviewer"⟩ "Docs" "https://example.com" rfl rfl rfl rfl
    rw [h1]
    decide
  · have h2 := h.2 ⟨some ⟨some "webviewer"⟩, some "Docs", none⟩
      ⟨some "webviewer"⟩ "Docs" rfl rfl rfl rfl
    rw [h2]
    decide

/-- C3: when no element matches the active-tab selector, `copyLink`
performs no clipboard write and emits exactly the no-active-tab notice. -/
theorem no_active_tab_no_write (st : UIState) (clipOk : Bool)
    (h : st.activeTab = none) :
    clipboardWrite (copyLink st clipOk) = none
    ∧ notices (copyLink st clipOk) = ["未找到激活的标签页"] := by
  simp [copyLink, h, clipboardWrite, notices]

/-- C3 witness: the empty DOM snapshot. -/
theorem no_active_tab_no_write_witness :
    clipboardWrite (copyLink ⟨none, none, none⟩ true) = none
    ∧ notices (copyLink ⟨none, none, none⟩ true) = ["未找到激活的标签页"] :=
  no_active_tab_no_write ⟨none, none, none⟩ true rfl

/-- A clipboard write recorded by `clipboardWrite` comes from a `wrote`
outcome, whose notice is the single notice emitted. -/
lemma clipboardWrite_eq_some {o : CopyOutcome} {l : String}
    (h : clipboardWrite o = some l) : ∃ n, o = .wrote l n ∧ notices o = [n] := by
  cases o with
  | wrote link notice =>
    simp only [clipboardWrite, Option.some.injEq] at h
    subst h
    exact ⟨notice, rfl, rfl⟩
  | thrown => simp [clipboardWrite] at h
  | noTab => simp [clipboardWrite] at h
  | silent => simp [clipboardWrite] at h

/-- Shape of the notice attached to any `wrote` outcome of `copyLink`: on
promise fulfilment it is a fixed prefix followed by the copied link, on
rejection it is the fixed failure message. -/
lemma copyLink_wrote_notice (st : UIState) (c : Bool) (link notice : String)
    (h : copyLink st c = .wrote link notice) :
    (c = true → ∃ pre, notice = pre ++ link)
    ∧ (c = false → notice = "复制失败，请重试") := by
  obtain ⟨atab, title, wv⟩ := st
  cases atab with
  | none => simp [copyLink] at h
  | some tab =>
    cases title with
    | none => simp [copyLink] at h
    | some T =>
      by_cases hw : tab.dataType = some "webviewer"
      · cases c with
        | true =>
          refine ⟨fun _ => ?_, fun hc => nomatch hc⟩
          simp [copyLink, hw] at h
          exact ⟨"已复制 Markdown 链接: ", by rw [← h.2, h.1]⟩
        | false =>
          refine ⟨fun hc => (nomatch hc), fun _ => ?_⟩
          simp [copyLink, hw] at h
          exact h.2.symm
      · by_cases hm : tab.dataType = some "markdown"
        · cases c with
          | true =>
            refine ⟨fun _ => ?_, fun hc => nomatch hc⟩
            simp [copyLink, hw, hm] at h
            exact ⟨"已复制 Wiki 链接: ", by rw [← h.2, h.1]⟩
          | false =>
            refine ⟨fun hc => (nomatch hc), fun _ => ?_⟩
            simp [copyLink, hw, hm] at h
            exact h.2.symm
        · simp [copyLink, hw, hm] at h

/-- C4: whenever an invocation performs a clipboard write, a successful
write emits exactly one notice and that notice contains the copied string,
and a failed write emits exactly the failure notice. -/
theorem write_notice_success_and_failure (st : UIState) (link : String) :
    (clipboardWrite (copyLink st true) = some link →
      ∃ n, notices (copyLink st true) = [n] ∧ strContains n link)
    ∧ (clipboardWrite (copyLink st false) = some link →
      notices (copyLink st false) = ["复制失败，请重试"]) := by
  constructor
  · intro h
    obtain ⟨n, ho, hn⟩ := clipboardWrite_eq_some h
    obtain ⟨hok, -⟩ := copyLink_wrote_notice st true link n ho
    obtain ⟨pre, hp⟩ := hok rfl
    refine ⟨n, hn, pre, "", ?_⟩
    rw [String.append_empty]
    exact hp
  · intro h
    obtain ⟨n, ho, hn⟩ := clipboardWrite_eq_some h
    obtain ⟨-, hfail⟩ := copyLink_wrote_notice st false link n ho
    rw [hn, hfail rfl]

/-- C4 witness: a note tab titled "X", for both promise outcomes. -/
theorem write_notice_success_and_failure_witness :
    (∃ n, notices (copyLink ⟨some ⟨some "markdown"⟩, some "X", none⟩ true) = [n]
      ∧ strContains n "[[X]]")
    ∧ notices (copyLink ⟨some ⟨some "markdown"⟩, some "X", none⟩ false)
      = ["复制失败，请重试"] := by
  have h := write_notice_success_and_failure ⟨some ⟨some "markdown"⟩, some "X", none⟩ "[[X]]"
  exact ⟨h.1 (by decide), h.2 (by decide)⟩

/-- C5: for an active tab whose `data-type` is neither `"webviewer"` nor
`"markdown"`, `copyLink` performs no clipboard write and emits no notice
of any kind. -/
theorem unrecognized_kind_silent (st : UIState) (tab : ActiveTabEl) (clipOk : Bool)
    (hTab : st.activeTab = some tab)
    (hw : tab.dataType ≠ some "webviewer") (hm : tab.dataType ≠ some "markdown") :
    clipboardWrite (copyLink st clipOk) = none
    ∧ notices (copyLink st clipOk) = [] := by
  cases hT : st.innerTitle with
  | none => simp [copyLink, hTab, hT, clipboardWrite, notices]
  | some T => simp [copyLink, hTab, hT, hw, hm, clipboardWrite, notices]

/-- C5 witness: a tab of kind `"pdf"`. -/
theorem unrecognized_kind_silent_witness :
    clipboardWrite (copyLink ⟨some ⟨some "pdf"⟩, some "doc", none⟩ true) = none
    ∧ notices (copyLink ⟨some ⟨some "pdf"⟩, some "doc", none⟩ true) = [] :=
  unrecognized_kind_silent ⟨some ⟨some "pdf"⟩, some "doc", none⟩ ⟨some "pdf"⟩ true
    rfl (by decide) (by decide)

lemma removeDC_active (s : DCState) :
    (removeDoubleClickListener s).active = s.active := by
  cases hA : s.active with
  | none => simp [removeDoubleClickListener, hA]
  | some e => simp [removeDoubleClickListener, hA]

lemma removeDC_active_not_mem (s : DCState) (hn : s.listeners.Nodup) (a : Nat)
    (ha : (removeDoubleClickListener s).active = some a) :
    a ∉ (removeDoubleClickListener s).listeners := by
  cases hA : s.active with
  | none => simp [removeDoubleClickListener, hA] at ha
  | some e =>
    simp only [removeDoubleClickListener, hA] at ha ⊢
    obtain rfl : e = a := Option.some_inj.mp ha
    exact hn.not_mem_erase

lemma addDC_active_mem (s : DCState) (a : Nat) (ha : s.active = some a) :
    a ∈ (addDoubleClickListener s).listeners := by
  simp only [addDoubleClickListener, removeDoubleClickListener, ha]
  by_cases hm : a ∈ s.listeners.erase a
  · simp [hm]
  · simp [hm]

/-- C6 counterexample: the claim fails as stated. Start enabled with header
0 active (the trigger is attached to header 0); the active classes move to
header 1 (a class-only change the `childList` observer does not observe);
a mutation fires (re-attaching to header 1, but header 0 keeps its
handler); the user toggles the setting off (which detaches only from the
now-active header 1); the active classes move back to header 0. The
resulting state has `enableDoubleClick = false`, yet the trigger is still
attached to the now-active header 0, and a double-click there fires the
copy handler — which, over a markdown tab, writes to the clipboard. -/
theorem dblclick_while_disabled_counterexample :
    ((dcRun (dcInit true (some 0))
      [UIEvent.setActive (some 1), UIEvent.toggle false, UIEvent.setActive (some 0)]).enabled
        = false)
    ∧ ((dcRun (dcInit true (some 0))
      [UIEvent.setActive (some 1), UIEvent.toggle false, UIEvent.setActive (some 0)]).active
        = some 0)
    ∧ (0 ∈ (dcRun (dcInit true (some 0))
      [UIEvent.setActive (some 1), UIEvent.toggle false, UIEvent.setActive (some 0)]).listeners)
    ∧ ((dcStep (dcRun (dcInit true (some 0))
      [UIEvent.setActive (some 1), UIEvent.toggle false, UIEvent.setActive (some 0)])
        (UIEvent.dblclick 0)).2 = true)
    ∧ clipboardWrite (copyLink ⟨some ⟨some "markdown"⟩, some "Note", none⟩ true)
        = some "[[Note]]" := by
  decide

/-- C6 (amended): immediately after a mutation or toggle event processed
with `enableDoubleClick` false, no double-click trigger is attached to the
current active tab header and a double-click on it fires no copy; the
guarantee does not cover headers that held the trigger and stopped being
active without an intervening observed mutation. -/
theorem disabled_event_detaches_active (s : DCState) (hn : s.listeners.Nodup)
    (ev : UIEvent)
    (hev : (ev = UIEvent.mutation ∧ s.enabled = false) ∨ ev = UIEvent.toggle false)
    (a : Nat) (ha : ((dcStep s ev).1).active = some a) :
    a ∉ ((dcStep s ev).1).listeners
    ∧ (dcStep (dcStep s ev).1 (UIEvent.dblclick a)).2 = false := by
  have hstep : (dcStep s ev).1 = removeDoubleClickListener s
      ∨ (dcStep s ev).1 = removeDoubleClickListener { s with enabled := false } := by
    rcases hev with ⟨hev, hen⟩ | hev
    · subst hev
      left
      simp [dcStep, hen]
    · subst hev
      right
      simp [dcStep]
  rcases hstep with hstep | hstep <;> rw [hstep] at ha ⊢
  · have hmem := removeDC_active_not_mem s hn a ha
    exact ⟨hmem, by simp [dcStep, hmem]⟩
  · have hmem := removeDC_active_not_mem { s with enabled := false } hn a ha
    exact ⟨hmem, by simp [dcStep, hmem]⟩

/-- C6 (amended) witness: toggling off with header 0 active and the
trigger attached detaches it and silences double-clicks on it. -/
theorem disabled_event_detaches_active_witness :
    (0 : Nat) ∉ ((dcStep ⟨true, [0], some 0⟩ (UIEvent.toggle false)).1).listeners
    ∧ (dcStep (dcStep ⟨true, [0], some 0⟩ (UIEvent.toggle false)).1
        (UIEvent.dblclick 0)).2 = false :=
  disabled_event_detaches_active ⟨true, [0], some 0⟩ (by decide)
    (UIEvent.toggle false) (Or.inr rfl) 0 (by decide)

/-- C7: every reachable state has each element registered at most once
(so at most one trigger sits on the active header); detaching when the
active header holds no trigger is a no-op; and attaching twice on an
unchanged active header equals attaching once (attach always detaches
first). -/
theorem at_most_one_trigger (enabled : Bool) (a0 : Option Nat)
    (evs : List UIEvent) (s : DCState) (hn : s.listeners.Nodup) :
    (∀ e, (dcRun (dcInit enabled a0) evs).listeners.count e ≤ 1)
    ∧ ((∀ e, s.active = some e → e ∉ s.listeners) → removeDoubleClickListener s = s)
    ∧ addDoubleClickListener (addDoubleClickListener s) = addDoubleClickListener s := by
  refine ⟨?_, ?_, ?_⟩
  · exact fun e => List.nodup_iff_count_le_one.mp
      (dcRun_listeners_nodup _ (dcInit_listeners_nodup enabled a0) evs) e
  · intro h
    cases hA : s.active with
    | none => simp [removeDoubleClickListener, hA]
    | some e =>
      simp only [removeDoubleClickListener, hA]
      rw [List.erase_of_not_mem (h e hA), ← hA]
  · cases hA : s.active with
    | none => simp [addDoubleClickListener, removeDoubleClickListener, hA]
    | some e =>
      have h1 : e ∉ s.listeners.erase e := hn.not_mem_erase
      have hadd : addDoubleClickListener s
          = ⟨s.enabled, e :: s.listeners.erase e, s.active⟩ := by
        simp [addDoubleClickListener, removeDoubleClickListener, hA, h1]
      rw [hadd]
      simp [addDoubleClickListener, removeDoubleClickListener, hA,
        List.erase_cons_head, h1]

/-- C7 witness: one onload-then-mutation run, plus the no-op detach and
the idempotent attach at a concrete state. -/
theorem at_most_one_trigger_witness :
    ((dcRun (dcInit true (some 0)) [UIEvent.mutation]).listeners.count 0 ≤ 1)
    ∧ removeDoubleClickListener ⟨true, [], some 0⟩ = ⟨true, [], some 0⟩
    ∧ addDoubleClickListener (addDoubleClickListener ⟨true, [], some 0⟩)
      = addDoubleClickListener ⟨true, [], some 0⟩ := by
  obtain ⟨h1, h2, h3⟩ :=
    at_most_one_trigger true (some 0) [UIEvent.mutation] ⟨true, [], some 0⟩ (by decide)
  exact ⟨h1 0, h2 (fun e _ => List.not_mem_nil e), h3⟩

/-- C8: with header `a` active, the settings toggle takes immediate
effect: toggling to true attaches the trigger to `a` (a double-click then
fires the copy handler), toggling to false detaches it (a double-click
then fires nothing) — no mutation event is needed in between. -/
theorem toggle_immediate (s : DCState) (hn : s.listeners.Nodup) (a : Nat)
    (ha : s.active = some a) :
    a ∈ ((dcStep s (UIEvent.toggle true)).1).listeners
    ∧ (dcStep (dcStep s (UIEvent.toggle true)).1 (UIEvent.dblclick a)).2 = true
    ∧ a ∉ ((dcStep s (UIEvent.toggle false)).1).listeners
    ∧ (dcStep (dcStep s (UIEvent.toggle false)).1 (UIEvent.dblclick a)).2 = false := by
  have hon : (dcStep s (UIEvent.toggle true)).1
      = addDoubleClickListener { s with enabled := true } := by
    simp [dcStep]
  have hoff : (dcStep s (UIEvent.toggle false)).1
      = removeDoubleClickListener { s with enabled := false } := by
    simp [dcStep]
  have hmem : a ∈ (addDoubleClickListener { s with enabled := true }).listeners :=
    addDC_active_mem { s with enabled := true } a ha
  have hnot : a ∉ (removeDoubleClickListener { s with enabled := false }).listeners :=
    removeDC_active_not_mem { s with enabled := false } hn a
      (by rw [removeDC_active]; exact ha)
  refine ⟨by rw [hon]; exact hmem, ?_, by rw [hoff]; exact hnot, ?_⟩
  · rw [hon]
    simp [dcStep, hmem]
  · rw [hoff]
    simp [dcStep, hnot]

/-- C8 witness: header 0 active, nothing attached, setting off; toggling
on attaches and arms double-click, toggling off keeps it detached. -/
theorem toggle_immediate_witness :
    (0 : Nat) ∈ ((dcStep ⟨false, [], some 0⟩ (UIEvent.toggle true)).1).listeners
    ∧ (dcStep (dcStep ⟨false, [], some 0⟩ (UIEvent.toggle true)).1
        (UIEvent.dblclick 0)).2 = true
    ∧ (0 : Nat) ∉ ((dcStep ⟨false, [], some 0⟩ (UIEvent.toggle false)).1).listeners
    ∧ (dcStep (dcStep ⟨false, [], some 0⟩ (UIEvent.toggle false)).1
        (UIEvent.dblclick 0)).2 = false :=
  toggle_immediate ⟨false, [], some 0⟩ (by decide) 0 rfl

/-- C9: `copyLink` is deterministic and stateless: the string written to
the clipboard is a function of the DOM snapshot alone — it does not depend
on the clipboard promise outcome, and the source mutates no field, so two
invocations on an unchanged snapshot write the identical string. -/
theorem copyLink_deterministic (st : UIState) (c c' : Bool) :
    clipboardWrite (copyLink st c) = clipboardWrite (copyLink st c') := by
  obtain ⟨atab, title, wv⟩ := st
  cases atab with
  | none => rfl
  | some tab =>
    cases title with
    | none => rfl
    | some T =>
      by_cases hw : tab.dataType = some "webviewer"
      · simp [copyLink, hw, clipboardWrite]
      · by_cases hm : tab.dataType = some "markdown"
        · simp [copyLink, hw, hm, clipboardWrite]
        · simp [copyLink, hw, hm, clipboardWrite]

/-- C10: when an element matches the active-tab selector but the
inner-title selector matches nothing, `copyLink` throws on the unguarded
`.innerText` read, before any clipboard write or notice. -/
theorem null_title_throws (st : UIState) (tab : ActiveTabEl) (clipOk : Bool)
    (hTab : st.activeTab = some tab) (hTitle : st.innerTitle = none) :
    copyLink st clipOk = .thrown
    ∧ clipboardWrite (copyLink st clipOk) = none
    ∧ notices (copyLink st clipOk) = [] := by
  simp [copyLink, hTab, hTitle, clipboardWrite, notices]

/-- C10 witness: an active markdown tab whose inner-title element is
missing. -/
theorem null_title_throws_witness :
    copyLink ⟨some ⟨some "markdown"⟩, none, none⟩ true = .thrown
    ∧ clipboardWrite (copyLink ⟨some ⟨some "markdown"⟩, none, none⟩ true) = none
    ∧ notices (copyLink ⟨some ⟨some "markdown"⟩, none, none⟩ true) = [] :=
  null_title_throws ⟨some ⟨some "markdown"⟩, none, none⟩ ⟨some "markdown"⟩ true rfl rfl

end TabCopy
